import Mathlib

/-!
Shallow embedding of the `client` package of go-remote-config-server
(src/client/client.go) and verification of its specification.

The backend (`source.Repository`) and the yaml library are external
collaborators: the backend is modelled from the spec's two-method contract
(`Refresh() -> error`, `GetData(key) -> (value, found)`), and the yaml
marshal/unmarshal round-trip of the structured accessor is taken as an
arbitrary pair of functions the theorems quantify over.
-/

namespace RemoteConfig

/-- A loosely-typed configuration value held in a backend snapshot: a Go
`interface{}` as produced by yaml decoding (string, native int, 64-bit
float, bool, sequence `[]interface{}`, nested mapping, or nil). Floats are
represented by rationals: only their dynamic type tag matters here. -/
inductive Value where
  | str (s : String)
  | int (n : Int)
  | float (q : Rat)
  | bool (b : Bool)
  | arr (elems : List Value)
  | dict (pairs : List (String × Value))
  | null

/-- Success of the Go type assertion `config.(string)`. -/
def Value.isString : Value → Bool
  | .str _ => true
  | _ => false

/-- Success of the Go type assertion `config.(int)`. -/
def Value.isInt : Value → Bool
  | .int _ => true
  | _ => false

/-- Success of the Go type assertion `config.(float64)`. -/
def Value.isFloat : Value → Bool
  | .float _ => true
  | _ => false

/-- Success of the Go type assertion `config.([]interface{})`. -/
def Value.isArr : Value → Bool
  | .arr _ => true
  | _ => false

/-- The string payload of a value, when its dynamic type is string. -/
def Value.asString : Value → Option String
  | .str s => some s
  | _ => none

/-- Mutable state of a backend: how many times `Refresh` has been called.
All other backend behaviour is a function of this count. -/
structure RepoState where
  refreshCount : Nat

/-- Modelled from the spec: the external `source.Repository` backend
contract (absent from src/). `refreshSpec n` is the error result of the
n-th `Refresh()` call (counting from 0); `dataSpec n key` is the snapshot
visible to `GetData` after n `Refresh` calls. -/
structure Repository where
  refreshSpec : Nat → Option String
  dataSpec : Nat → String → Option Value

/-- `Refresh() -> error`: performs the next refresh call, returning its
error (if any) and the advanced backend state. -/
def Repository.Refresh (r : Repository) (s : RepoState) : Option String × RepoState :=
  (r.refreshSpec s.refreshCount, ⟨s.refreshCount + 1⟩)

/-- `GetData(key) -> (value, found)`: reads the current snapshot. -/
def Repository.GetData (r : Repository) (s : RepoState) (name : String) : Option Value :=
  r.dataSpec s.refreshCount name

/-- The `Client` struct of client.go. The Go field `cancel` stores the
cancel function of the child context; here the child context's cancelled
flag is carried directly as `ctxCancelled`. -/
structure Client where
  Repository : Repository
  RefreshInterval : Nat
  isClosed : Bool
  ctxCancelled : Bool

/-- Everything observable about a `NewClient` call: the returned client
pointer and error, the backend state after the initial synchronous
refresh, whether the background refresh goroutine was started, and the
value of the package-level `defaultClient` singleton after the call. -/
structure NewClientResult where
  client : Option Client
  err : Option String
  repoState : RepoState
  taskStarted : Bool
  defaultClient : Option Client

/-- `NewClient` of client.go: derives a cancellable child context, builds
the Client, performs one synchronous `Repository.Refresh()`, and on error
returns nil without starting the background task or touching the
singleton; on success starts `refresh`, assigns `defaultClient`, and
returns the client. `defaultClient0` is the singleton's value before the
call. -/
def NewClient (defaultClient0 : Option Client) (repository : Repository)
    (s : RepoState) (refreshInterval : Nat) : NewClientResult :=
  let client : Client :=
    { Repository := repository, RefreshInterval := refreshInterval,
      isClosed := false, ctxCancelled := false }
  let step := client.Repository.Refresh s
  match step.1 with
  | some e =>
      -- logrus error "error refreshing repository"; return nil, err
      { client := none, err := some e, repoState := step.2,
        taskStarted := false, defaultClient := defaultClient0 }
  | none =>
      -- go refresh(ctx, client); defaultClient = client; return client, nil
      { client := some client, err := none, repoState := step.2,
        taskStarted := true, defaultClient := some client }

/-- One arrival at the `select` of the background `refresh` loop: either
the ticker channel fires or the bound context's Done channel is closed. -/
inductive LoopEvent where
  | tick
  | ctxDone
deriving DecidableEq

/-- Outcome of running the `refresh` loop over a finite schedule of select
events: the backend state reached and whether the loop has returned
(dropping its only reference to the ticker). `terminated = false` means
the loop is still blocked in `select`. -/
structure LoopResult where
  finalState : RepoState
  terminated : Bool

/-- The background `refresh` goroutine of client.go, run over an explicit
finite schedule of select outcomes. On a tick it calls
`Repository.Refresh()`; an error is only logged and the loop continues.
On context cancellation it returns. -/
def refresh (client : Client) : List LoopEvent → RepoState → LoopResult
  | [], s => ⟨s, false⟩
  | .tick :: rest, s =>
      match (client.Repository.Refresh s).1 with
      | some _ =>
          -- logrus error "error refreshing repository"; loop continues
          refresh client rest ⟨s.refreshCount + 1⟩
      | none => refresh client rest ⟨s.refreshCount + 1⟩
  | .ctxDone :: _, s => ⟨s, true⟩

/-- `Close` of client.go: cancels the context bound to the background task
and sets the closed flag. -/
def Client.Close (c : Client) : Client :=
  { c with ctxCancelled := true, isClosed := true }

/-- The method `(*Client).GetConfigString`. The result pairs the returned
string with the returned error (`none` = nil error). -/
def Client.GetConfigString (c : Client) (s : RepoState) (name defaultValue : String) :
    String × Option String :=
  if c.isClosed then (defaultValue, some "client is closed")
  else
    match c.Repository.GetData s name with
    | none => (defaultValue, some "config not found")
    | some config =>
        match config with
        | .str configString => (configString, none)
        | _ => (defaultValue, some "config is not a string")

/-- The method `(*Client).GetConfigInt`. -/
def Client.GetConfigInt (c : Client) (s : RepoState) (name : String) (defaultValue : Int) :
    Int × Option String :=
  if c.isClosed then (defaultValue, some "client is closed")
  else
    match c.Repository.GetData s name with
    | none => (defaultValue, some "config not found")
    | some config =>
        match config with
        | .int configInt => (configInt, none)
        | _ => (defaultValue, some "config is not an int64")

/-- The method `(*Client).GetConfigFloat` (its mismatch message also reads
"config is not an int64" in the source). -/
def Client.GetConfigFloat (c : Client) (s : RepoState) (name : String) (defaultValue : Rat) :
    Rat × Option String :=
  if c.isClosed then (defaultValue, some "client is closed")
  else
    match c.Repository.GetData s name with
    | none => (defaultValue, some "config not found")
    | some config =>
        match config with
        | .float configFloat => (configFloat, none)
        | _ => (defaultValue, some "config is not an int64")

/-- The element loop of `GetConfigArrayOfStrings`: asserts each element of
the `[]interface{}` to string, aborting at the first non-string element. -/
def toStringList : List Value → Option (List String)
  | [] => some []
  | .str s :: rest => (toStringList rest).map (s :: ·)
  | _ :: _ => none

/-- The method `(*Client).GetConfigArrayOfStrings`. -/
def Client.GetConfigArrayOfStrings (c : Client) (s : RepoState) (name : String)
    (defaultValue : List String) : List String × Option String :=
  if c.isClosed then (defaultValue, some "client is closed")
  else
    match c.Repository.GetData s name with
    | none => (defaultValue, some "config not found")
    | some config =>
        match config with
        | .arr configArray =>
            match toStringList configArray with
            | none => (defaultValue, some "config is not an array of strings")
            | some output => (output, none)
        | _ => (defaultValue, some "config is not an array of strings")

/-- The method `(*Client).GetConfig`. `dest` is the value the caller's
destination pointer refers to before the call; the first component of the
result is that value after the call. The Go parameter `data interface{}`
is passed by value, so the statements `data = defaultValue` on the failure
paths rebind only the local parameter: they never change `dest`. Only
`yaml.Unmarshal` writes through the pointer. `marshal`/`unmarshal` stand
for the external yaml library (`unmarshal bytes dest` returns the new
contents of the destination, or an error leaving it unchanged). -/
def Client.GetConfig (c : Client) (s : RepoState)
    (marshal : Value → Except String String)
    (unmarshal : String → Value → Except String Value)
    (name : String) (dest defaultValue : Value) : Value × Option String :=
  if c.isClosed then
    -- Go: data = defaultValue (local rebinding only); return closed error
    (dest, some "client is closed")
  else
    match c.Repository.GetData s name with
    | none =>
        -- Go: data = defaultValue (local rebinding only); return not-found
        (dest, some "config not found")
    | some config =>
        match marshal config with
        | .error e =>
            -- Go: data = defaultValue (local rebinding only); return err
            (dest, some e)
        | .ok bytes =>
            match unmarshal bytes dest with
            | .error e =>
                -- Go: data = defaultValue (local rebinding only); return err
                (dest, some e)
            | .ok newDest => (newDest, none)

/-- Result of a package-level static accessor call: either the call
crashes with a nil-pointer dereference (the singleton is nil and the
method body reads `c.isClosed`), or it returns a value and an error. -/
inductive StaticOutcome (α : Type) where
  | nilDeref
  | ret (val : α) (err : Option String)

/-- Package-level `GetConfig`, delegating to the `defaultClient` singleton. -/
def GetConfig (defaultClient : Option Client) (s : RepoState)
    (marshal : Value → Except String String)
    (unmarshal : String → Value → Except String Value)
    (name : String) (dest defaultValue : Value) : StaticOutcome Value :=
  match defaultClient with
  | none => .nilDeref
  | some c =>
      let r := c.GetConfig s marshal unmarshal name dest defaultValue
      .ret r.1 r.2

/-- Package-level `GetConfigArrayOfStrings`, delegating to the singleton. -/
def GetConfigArrayOfStrings (defaultClient : Option Client) (s : RepoState)
    (name : String) (defaultValue : List String) : StaticOutcome (List String) :=
  match defaultClient with
  | none => .nilDeref
  | some c =>
      let r := c.GetConfigArrayOfStrings s name defaultValue
      .ret r.1 r.2

/-- Package-level `GetConfigString`, delegating to the singleton. -/
def GetConfigString (defaultClient : Option Client) (s : RepoState)
    (name defaultValue : String) : StaticOutcome String :=
  match defaultClient with
  | none => .nilDeref
  | some c =>
      let r := c.GetConfigString s name defaultValue
      .ret r.1 r.2

/-- Package-level `GetConfigInt`, delegating to the singleton. -/
def GetConfigInt (defaultClient : Option Client) (s : RepoState)
    (name : String) (defaultValue : Int) : StaticOutcome Int :=
  match defaultClient with
  | none => .nilDeref
  | some c =>
      let r := c.GetConfigInt s name defaultValue
      .ret r.1 r.2

/-- Package-level `GetConfigFloat`, delegating to the singleton. -/
def GetConfigFloat (defaultClient : Option Client) (s : RepoState)
    (name : String) (defaultValue : Rat) : StaticOutcome Rat :=
  match defaultClient with
  | none => .nilDeref
  | some c =>
      let r := c.GetConfigFloat s name defaultValue
      .ret r.1 r.2

/-! Concrete fixtures used by witnesses and counterexamples. -/

/-- A backend whose every `Refresh` call fails. -/
def repoFailEx : Repository :=
  { refreshSpec := fun _ => some "connection refused", dataSpec := fun _ _ => none }

/-- A backend whose `Refresh` always succeeds; its snapshot maps "k" to a
string, "xs" to an all-string sequence, "bad" to a mixed sequence, "b" to
a bool, "i" to an int and "f" to an integral float. -/
def repoOkEx : Repository :=
  { refreshSpec := fun _ => none,
    dataSpec := fun _ key =>
      if key = "k" then some (.str "v")
      else if key = "xs" then some (.arr [.str "a", .str "b"])
      else if key = "bad" then some (.arr [.str "a", .str "b", .int 3])
      else if key = "b" then some (.bool true)
      else if key = "i" then some (.int 7)
      else if key = "f" then some (.float 3)
      else none }

/-- A backend whose first `Refresh` succeeds and all later ones fail. -/
def repoFirstOkEx : Repository :=
  { refreshSpec := fun n => if n = 0 then none else some "connection refused",
    dataSpec := fun _ _ => none }

/-- A live client over `repoOkEx`. -/
def clientEx : Client :=
  { Repository := repoOkEx, RefreshInterval := 5, isClosed := false, ctxCancelled := false }

/-- A yaml.Marshal stand-in that always succeeds. -/
def marshalEx : Value → Except String String := fun _ => .ok "serialized"

/-- A yaml.Unmarshal stand-in that leaves the destination unchanged. -/
def unmarshalEx : String → Value → Except String Value := fun _ d => .ok d

/-- A yaml.Marshal stand-in that always fails. -/
def marshalFailEx : Value → Except String String := fun _ => .error "yaml marshal error"

/-- A yaml.Unmarshal stand-in that always fails. -/
def unmarshalFailEx : String → Value → Except String Value :=
  fun _ _ => .error "yaml unmarshal error"

/-! Theorems settling the claims. -/

/-- C1: `NewClient` fails — returns a nil Client, the refresh error, and
starts no background task — exactly when the single synchronous initial
`Repository.Refresh()` call errors, and succeeds (non-nil Client,
background task started) exactly when that first call succeeds; the
outcomes of all later refresh calls (`refreshSpec` at larger indices) are
unconstrained, so a backend failing every subsequent refresh still yields
a client. -/
theorem newClient_fails_iff_initial_refresh_errs
    (dc0 : Option Client) (repo : Repository) (s : RepoState) (i : Nat) :
    ((NewClient dc0 repo s i).client = none
        ↔ (repo.refreshSpec s.refreshCount).isSome = true)
    ∧ ((NewClient dc0 repo s i).taskStarted = true
        ↔ repo.refreshSpec s.refreshCount = none)
    ∧ (NewClient dc0 repo s i).err = repo.refreshSpec s.refreshCount := by
  unfold NewClient Repository.Refresh
  cases h : repo.refreshSpec s.refreshCount <;> simp [h]

/-- C8: the background `refresh` loop returns exactly when the bound
context is cancelled: over any schedule of select events and any client
(hence any pattern of refresh errors, which are only logged), the loop has
terminated iff the schedule delivered a `ctxDone` event. -/
theorem refresh_loop_terminates_iff_ctx_cancelled
    (c : Client) (events : List LoopEvent) (s : RepoState) :
    (refresh c events s).terminated = true ↔ LoopEvent.ctxDone ∈ events := by
  induction events generalizing s with
  | nil => simp [refresh]
  | cons e rest ih =>
      cases e with
      | tick =>
          cases h : (c.Repository.Refresh s).1 <;>
            simp [refresh, h, ih, List.mem_cons]
      | ctxDone => simp [refresh]

/-- C9: each package-level static accessor, called while the singleton
`defaultClient` is still nil (no Client ever constructed), dereferences
the nil pointer inside the method body and crashes; none of them returns a
"no client configured" error. -/
theorem static_accessors_nil_singleton_crash (s : RepoState)
    (marshal : Value → Except String String)
    (unmarshal : String → Value → Except String Value)
    (name : String) (dest dv : Value) (ds : String) (di : Int) (df : Rat)
    (da : List String) :
    GetConfig none s marshal unmarshal name dest dv = .nilDeref
    ∧ GetConfigString none s name ds = .nilDeref
    ∧ GetConfigInt none s name di = .nilDeref
    ∧ GetConfigFloat none s name df = .nilDeref
    ∧ GetConfigArrayOfStrings none s name da = .nilDeref :=
  ⟨rfl, rfl, rfl, rfl, rfl⟩

/-- C10: if the initial refresh fails, `NewClient` returns before the
`defaultClient = client` assignment, so the singleton keeps its previous
value; only a successful construction overwrites it (with the returned
client). -/
theorem newClient_singleton_assigned_only_on_success
    (dc0 : Option Client) (repo : Repository) (s : RepoState) (i : Nat) :
    ((repo.refreshSpec s.refreshCount).isSome = true →
        (NewClient dc0 repo s i).defaultClient = dc0)
    ∧ (repo.refreshSpec s.refreshCount = none →
        (NewClient dc0 repo s i).defaultClient = (NewClient dc0 repo s i).client) := by
  unfold NewClient Repository.Refresh
  cases h : repo.refreshSpec s.refreshCount <;> simp [h]

/-- Witness for C10: a failed construction leaves a previously registered
client in place, and a successful one registers the new client. -/
theorem newClient_singleton_assigned_only_on_success_witness :
    (NewClient (some clientEx) repoFailEx ⟨0⟩ 5).defaultClient = some clientEx
    ∧ (NewClient none repoOkEx ⟨0⟩ 5).defaultClient = (NewClient none repoOkEx ⟨0⟩ 5).client :=
  ⟨(newClient_singleton_assigned_only_on_success (some clientEx) repoFailEx ⟨0⟩ 5).1 rfl,
   (newClient_singleton_assigned_only_on_success none repoOkEx ⟨0⟩ 5).2 rfl⟩

/-- The element loop succeeds on an all-string sequence, producing every
element's payload in order. -/
lemma toStringList_of_all_strings (xs : List Value) (h : ∀ w ∈ xs, w.isString = true) :
    toStringList xs = some (xs.filterMap Value.asString) := by
  induction xs with
  | nil => rfl
  | cons v rest ih =>
      have hv : v.isString = true := h v (List.mem_cons_self v rest)
      have hrest : ∀ w ∈ rest, w.isString = true := fun w hw => h w (List.mem_cons_of_mem v hw)
      cases v <;> simp_all [toStringList, Value.isString, Value.asString, List.filterMap]

/-- The element loop aborts as soon as the sequence holds one non-string
element. -/
lemma toStringList_of_non_string (xs : List Value) (h : ∃ w ∈ xs, w.isString = false) :
    toStringList xs = none := by
  induction xs with
  | nil => simp at h
  | cons v rest ih =>
      rcases h with ⟨w, hw, hws⟩
      rcases List.mem_cons.mp hw with rfl | hw'
      · cases w <;> simp_all [toStringList, Value.isString]
      · have hrest : toStringList rest = none := ih ⟨w, hw', hws⟩
        cases v <;> simp [toStringList, hrest]

/-- C2 counterexample: on a closed client the structured accessor
`GetConfig` does not hand the caller the supplied default — the only
caller-visible value, the destination, keeps its prior contents (the
assignment of the default hits only the local parameter) even though the
closed-client error is returned. -/
theorem closed_getConfig_keeps_dest_counterexample :
    ((clientEx.Close).GetConfig ⟨0⟩ marshalEx unmarshalEx "k"
        (.str "old") (.str "fallback")).1 = Value.str "old"
    ∧ ((clientEx.Close).GetConfig ⟨0⟩ marshalEx unmarshalEx "k"
        (.str "old") (.str "fallback")).2 = some "client is closed"
    ∧ Value.str "old" ≠ Value.str "fallback" :=
  ⟨rfl, rfl, by simp⟩

/-- C2 (amended): after `Close()` every accessor returns the closed-client
error regardless of the backend snapshot; the four scalar accessors also
return the caller-supplied default, while `GetConfig` leaves the caller's
destination unchanged (the default reaches only the local parameter). -/
theorem closed_accessors_return_default_and_closed_error
    (c : Client) (s : RepoState) (marshal : Value → Except String String)
    (unmarshal : String → Value → Except String Value) (name : String)
    (dest dv : Value) (ds : String) (di : Int) (df : Rat) (da : List String) :
    (c.Close).GetConfigString s name ds = (ds, some "client is closed")
    ∧ (c.Close).GetConfigInt s name di = (di, some "client is closed")
    ∧ (c.Close).GetConfigFloat s name df = (df, some "client is closed")
    ∧ (c.Close).GetConfigArrayOfStrings s name da = (da, some "client is closed")
    ∧ (c.Close).GetConfig s marshal unmarshal name dest dv
        = (dest, some "client is closed") := by
  refine ⟨?_, ?_, ?_, ?_, ?_⟩ <;>
    simp [Client.Close, Client.GetConfigString, Client.GetConfigInt,
      Client.GetConfigFloat, Client.GetConfigArrayOfStrings, Client.GetConfig]

/-- C4 counterexample: on a live client and an absent key, `GetConfig`
does not hand the caller the supplied default — the destination keeps its
prior contents — even though the not-found error is returned. -/
theorem notfound_getConfig_keeps_dest_counterexample :
    (clientEx.GetConfig ⟨0⟩ marshalEx unmarshalEx "missing"
        (.str "old") (.str "fallback")).1 = Value.str "old"
    ∧ (clientEx.GetConfig ⟨0⟩ marshalEx unmarshalEx "missing"
        (.str "old") (.str "fallback")).2 = some "config not found"
    ∧ Value.str "old" ≠ Value.str "fallback" :=
  ⟨rfl, rfl, by simp⟩

/-- C4 (amended): for a key the backend snapshot lacks, every accessor on
a non-closed client returns the not-found error; the four scalar
accessors also return the caller-supplied default, while `GetConfig`
leaves the caller's destination unchanged. -/
theorem absent_key_returns_default_and_notfound
    (c : Client) (s : RepoState) (name : String)
    (hc : c.isClosed = false) (hk : c.Repository.GetData s name = none)
    (marshal : Value → Except String String)
    (unmarshal : String → Value → Except String Value)
    (dest dv : Value) (ds : String) (di : Int) (df : Rat) (da : List String) :
    c.GetConfigString s name ds = (ds, some "config not found")
    ∧ c.GetConfigInt s name di = (di, some "config not found")
    ∧ c.GetConfigFloat s name df = (df, some "config not found")
    ∧ c.GetConfigArrayOfStrings s name da = (da, some "config not found")
    ∧ c.GetConfig s marshal unmarshal name dest dv
        = (dest, some "config not found") := by
  refine ⟨?_, ?_, ?_, ?_, ?_⟩ <;>
    simp [Client.GetConfigString, Client.GetConfigInt, Client.GetConfigFloat,
      Client.GetConfigArrayOfStrings, Client.GetConfig, hc, hk]

/-- Witness for C4 (amended), at a live client and the absent key
"missing". -/
theorem absent_key_returns_default_and_notfound_witness :
    clientEx.GetConfigString ⟨0⟩ "missing" "d" = ("d", some "config not found")
    ∧ clientEx.GetConfigInt ⟨0⟩ "missing" 9 = (9, some "config not found") :=
  ⟨(absent_key_returns_default_and_notfound clientEx ⟨0⟩ "missing" rfl rfl
      marshalEx unmarshalEx .null .null "d" 9 0 []).1,
   (absent_key_returns_default_and_notfound clientEx ⟨0⟩ "missing" rfl rfl
      marshalEx unmarshalEx .null .null "d" 9 0 []).2.1⟩

/-- On an all-string sequence the conversion keeps every element. -/
lemma filterMap_asString_length (xs : List Value) (h : ∀ w ∈ xs, w.isString = true) :
    (xs.filterMap Value.asString).length = xs.length := by
  induction xs with
  | nil => rfl
  | cons v rest ih =>
      have hv := h v (List.mem_cons_self v rest)
      have hr := ih (fun w hw => h w (List.mem_cons_of_mem v hw))
      cases v <;> simp_all [Value.isString, Value.asString]

/-- C3: on a live client, a present key whose value's dynamic type does
not match the requested accessor makes each scalar accessor return the
caller-supplied default (whatever it is — so never a zero value built by
a failed conversion) together with its type-mismatch error. -/
theorem mismatched_value_returns_default
    (c : Client) (s : RepoState) (name : String) (v : Value)
    (hc : c.isClosed = false) (hv : c.Repository.GetData s name = some v)
    (ds : String) (di : Int) (df : Rat) (da : List String) :
    (v.isString = false →
        c.GetConfigString s name ds = (ds, some "config is not a string"))
    ∧ (v.isInt = false →
        c.GetConfigInt s name di = (di, some "config is not an int64"))
    ∧ (v.isFloat = false →
        c.GetConfigFloat s name df = (df, some "config is not an int64"))
    ∧ ((¬ ∃ xs, v = Value.arr xs ∧ ∀ w ∈ xs, w.isString = true) →
        c.GetConfigArrayOfStrings s name da
          = (da, some "config is not an array of strings")) := by
  refine ⟨?_, ?_, ?_, ?_⟩
  · intro hm
    cases v <;> simp_all [Client.GetConfigString, Value.isString, hc, hv]
  · intro hm
    cases v <;> simp_all [Client.GetConfigInt, Value.isInt, hc, hv]
  · intro hm
    cases v <;> simp_all [Client.GetConfigFloat, Value.isFloat, hc, hv]
  · intro hm
    cases v with
    | arr xs =>
        have hbad : ∃ w ∈ xs, w.isString = false := by
          by_contra hall
          push_neg at hall
          refine hm ⟨xs, rfl, fun w hw => ?_⟩
          cases hb : w.isString
          · exact absurd hb (hall w hw)
          · rfl
        simp [Client.GetConfigArrayOfStrings, hc, hv,
          toStringList_of_non_string xs hbad]
    | str a => simp [Client.GetConfigArrayOfStrings, hc, hv]
    | int a => simp [Client.GetConfigArrayOfStrings, hc, hv]
    | float a => simp [Client.GetConfigArrayOfStrings, hc, hv]
    | bool a => simp [Client.GetConfigArrayOfStrings, hc, hv]
    | dict a => simp [Client.GetConfigArrayOfStrings, hc, hv]
    | null => simp [Client.GetConfigArrayOfStrings, hc, hv]

/-- Witness for C3, at a stored boolean (which matches none of the four
requested types). -/
theorem mismatched_value_returns_default_witness :
    clientEx.GetConfigString ⟨0⟩ "b" "d" = ("d", some "config is not a string")
    ∧ clientEx.GetConfigInt ⟨0⟩ "b" 9 = (9, some "config is not an int64")
    ∧ clientEx.GetConfigFloat ⟨0⟩ "b" 1 = (1, some "config is not an int64")
    ∧ clientEx.GetConfigArrayOfStrings ⟨0⟩ "b" ["d"]
        = (["d"], some "config is not an array of strings") := by
  have h := mismatched_value_returns_default clientEx ⟨0⟩ "b" (.bool true)
    rfl rfl "d" 9 1 ["d"]
  refine ⟨h.1 rfl, h.2.1 rfl, h.2.2.1 rfl, h.2.2.2 ?_⟩
  rintro ⟨xs, hxs, -⟩
  cases hxs

/-- C5: `GetConfigArrayOfStrings` is all-or-nothing. On a live client and
a stored sequence: if every element is a string the full converted list
(one output string per element, in order) is returned with no error; if
any element is not a string the caller-supplied default is returned with
an error — never a prefix of converted elements. -/
theorem arrayOfStrings_all_or_nothing
    (c : Client) (s : RepoState) (name : String) (xs : List Value)
    (da : List String) (hc : c.isClosed = false)
    (hv : c.Repository.GetData s name = some (.arr xs)) :
    ((∀ w ∈ xs, w.isString = true) →
        c.GetConfigArrayOfStrings s name da = (xs.filterMap Value.asString, none)
        ∧ (xs.filterMap Value.asString).length = xs.length)
    ∧ ((∃ w ∈ xs, w.isString = false) →
        c.GetConfigArrayOfStrings s name da
          = (da, some "config is not an array of strings")) := by
  constructor
  · intro hall
    refine ⟨?_, filterMap_asString_length xs hall⟩
    simp [Client.GetConfigArrayOfStrings, hc, hv, toStringList_of_all_strings xs hall]
  · intro hbad
    simp [Client.GetConfigArrayOfStrings, hc, hv, toStringList_of_non_string xs hbad]

/-- Witness for C5: the all-string sequence ["a","b"] converts whole; the
mixed sequence ["a","b",3] yields the default, not ["a","b"]. -/
theorem arrayOfStrings_all_or_nothing_witness :
    clientEx.GetConfigArrayOfStrings ⟨0⟩ "xs" ["d"] = (["a", "b"], none)
    ∧ clientEx.GetConfigArrayOfStrings ⟨0⟩ "bad" ["d"]
        = (["d"], some "config is not an array of strings") := by
  constructor
  · have h := (arrayOfStrings_all_or_nothing clientEx ⟨0⟩ "xs"
      [.str "a", .str "b"] ["d"] rfl rfl).1 (by decide)
    simpa [Value.asString] using h.1
  · exact (arrayOfStrings_all_or_nothing clientEx ⟨0⟩ "bad"
      [.str "a", .str "b", .int 3] ["d"] rfl rfl).2 (by decide)

/-- C6: on a live client, `GetConfigInt` returns the stored value with no
error when the value's dynamic type is a native int; a stored float —
integral or not — yields the default and the type-mismatch error; and any
call that returns no error had a native-int stored value. -/
theorem getConfigInt_requires_native_int
    (c : Client) (s : RepoState) (name : String) (di : Int)
    (hc : c.isClosed = false) :
    (∀ n : Int, c.Repository.GetData s name = some (.int n) →
        c.GetConfigInt s name di = (n, none))
    ∧ (∀ q : Rat, c.Repository.GetData s name = some (.float q) →
        c.GetConfigInt s name di = (di, some "config is not an int64"))
    ∧ (∀ v : Value, c.Repository.GetData s name = some v →
        (c.GetConfigInt s name di).2 = none → v.isInt = true) := by
  refine ⟨?_, ?_, ?_⟩
  · intro n hn
    simp [Client.GetConfigInt, hc, hn]
  · intro q hq
    simp [Client.GetConfigInt, hc, hq]
  · intro v hv hok
    cases v <;> simp_all [Client.GetConfigInt, Value.isInt, hc, hv]

/-- Witness for C6: the stored int 7 is returned as is; the stored float
3, although integral, yields the default 9 and the mismatch error. -/
theorem getConfigInt_requires_native_int_witness :
    clientEx.GetConfigInt ⟨0⟩ "i" 9 = (7, none)
    ∧ clientEx.GetConfigInt ⟨0⟩ "f" 9 = (9, some "config is not an int64") :=
  ⟨(getConfigInt_requires_native_int clientEx ⟨0⟩ "i" 9 rfl).1 7 rfl,
   (getConfigInt_requires_native_int clientEx ⟨0⟩ "f" 9 rfl).2.1 3 rfl⟩

/-- C7: whenever `GetConfig` returns an error — closed client, absent
key, marshal failure, or unmarshal failure — the caller's destination
still holds its prior contents: the `data = defaultValue` statements
rebind only the local parameter, and the only write through the pointer
(a successful `yaml.Unmarshal`) happens on the error-free path. -/
theorem getConfig_error_leaves_dest_unchanged
    (c : Client) (s : RepoState) (marshal : Value → Except String String)
    (unmarshal : String → Value → Except String Value)
    (name : String) (dest dv : Value) (e : String)
    (h : (c.GetConfig s marshal unmarshal name dest dv).2 = some e) :
    (c.GetConfig s marshal unmarshal name dest dv).1 = dest := by
  by_cases hc : c.isClosed
  · simp [Client.GetConfig, hc]
  · cases hg : c.Repository.GetData s name with
    | none => simp [Client.GetConfig, hc, hg]
    | some config =>
        cases hm : marshal config with
        | error me => simp [Client.GetConfig, hc, hg, hm]
        | ok bytes =>
            cases hu : unmarshal bytes dest with
            | error ue => simp [Client.GetConfig, hc, hg, hm, hu]
            | ok nd => simp [Client.GetConfig, hc, hg, hm, hu] at h

/-- Witness for C7, one conjunct per failure path: closed client, absent
key, failing marshal, failing unmarshal — the destination keeps "old"
each time. -/
theorem getConfig_error_leaves_dest_unchanged_witness :
    ((clientEx.Close).GetConfig ⟨0⟩ marshalEx unmarshalEx "k"
        (.str "old") .null).1 = Value.str "old"
    ∧ (clientEx.GetConfig ⟨0⟩ marshalEx unmarshalEx "missing"
        (.str "old") .null).1 = Value.str "old"
    ∧ (clientEx.GetConfig ⟨0⟩ marshalFailEx unmarshalEx "k"
        (.str "old") .null).1 = Value.str "old"
    ∧ (clientEx.GetConfig ⟨0⟩ marshalEx unmarshalFailEx "k"
        (.str "old") .null).1 = Value.str "old" :=
  ⟨getConfig_error_leaves_dest_unchanged clientEx.Close ⟨0⟩ marshalEx unmarshalEx
      "k" (.str "old") .null "client is closed" rfl,
   getConfig_error_leaves_dest_unchanged clientEx ⟨0⟩ marshalEx unmarshalEx
      "missing" (.str "old") .null "config not found" rfl,
   getConfig_error_leaves_dest_unchanged clientEx ⟨0⟩ marshalFailEx unmarshalEx
      "k" (.str "old") .null "yaml marshal error" rfl,
   getConfig_error_leaves_dest_unchanged clientEx ⟨0⟩ marshalEx unmarshalFailEx
      "k" (.str "old") .null "yaml unmarshal error" rfl⟩

end RemoteConfig
